import Mathlib

/-!
Verification of the Flint civic-engagement backend.

This file gives a shallow embedding of the in-memory data store
(`src/backend/data_store.py`, class `IssueDataStore`), of the Supabase-backed
candidate queries (`src/backend/supabase_client.py`), and of the
`/api/candidates` Flask route (`src/backend/app.py`), and proves properties
of the increment / reset / relationship-query operations.

Modelling conventions:
- Python dicts become association lists `List (String × α)`; lookup walks the
  list front to back (dict keys are unique in the source data, so this agrees
  with Python semantics).
- The Python `set` of user sessions becomes a `Finset String`.
- Python truthiness of an optional string (`if user_id:`) is modelled by
  `uTruthy`: `None` and `""` are falsy.
- Functions that iterate over a Python `set` (whose iteration order is
  unspecified) return lists built from `Finset.toList`; all claims about them
  are stated up to membership.
-/

set_option maxRecDepth 100000

namespace Flint

structure Issue where
  id : String
  name : String
  icon : String
  description : String
  count : Nat
  related_offices : List String
  related_measures : List String
deriving DecidableEq

structure Office where
  id : String
  name : String
  description : String
  explanation : String
  level : String
  related_issues : List String
deriving DecidableEq

structure BallotMeasure where
  id : String
  title : String
  description : String
  category : String
  impact : String
  related_issues : List String
deriving DecidableEq

structure Candidate where
  id : String
  name : String
  party : String
  photo : String
  positions : List String
  office_id : String
  related_issues : List String
deriving DecidableEq

/-- State of `IssueDataStore` (`data_store.py`, `__init__`): four entity
dicts, the total-participants counter and the duplicate-tracking session set. -/
structure IssueDataStore where
  issues : List (String × Issue)
  offices : List (String × Office)
  ballot_measures : List (String × BallotMeasure)
  candidates : List (String × Candidate)
  total_users : Nat
  user_sessions : Finset String
deriving DecidableEq

/-- Python dict lookup `d[k]` / `d.get(k)` on an association list. -/
def dictLookup {α : Type} : List (String × α) → String → Option α
  | [], _ => none
  | p :: rest, k => if p.1 = k then some p.2 else dictLookup rest k

/-- Python `k in d`. -/
def dictContains {α : Type} (d : List (String × α)) (k : String) : Bool :=
  (dictLookup d k).isSome

/-! ### Demo data (`_load_demo_data`, lines 131-424 of `data_store.py`) -/

def issue_housing : Issue :=
  { id := "housing", name := "Housing", icon := "Home",
    description := "Affordable housing, rent control, and homeownership programs",
    count := 1247, related_offices := ["city-council"],
    related_measures := ["measure-housing-1"] }

def issue_education : Issue :=
  { id := "education", name := "Education", icon := "GraduationCap",
    description := "School funding, curriculum, and educational opportunities",
    count := 982, related_offices := ["school-board"],
    related_measures := ["measure-edu-1"] }

def issue_healthcare : Issue :=
  { id := "healthcare", name := "Healthcare", icon := "Heart",
    description := "Healthcare access, costs, and public health initiatives",
    count := 1156, related_offices := ["county-commissioner"],
    related_measures := ["measure-healthcare-1"] }

def issue_environment : Issue :=
  { id := "environment", name := "Environment", icon := "Leaf",
    description := "Climate change, pollution, and environmental protection",
    count := 891, related_offices := ["mayor", "transit-board"],
    related_measures := ["measure-env-1", "measure-trans-1"] }

def issue_transportation : Issue :=
  { id := "transportation", name := "Transportation", icon := "Car",
    description := "Public transit, roads, and transportation infrastructure",
    count := 743, related_offices := ["transit-board"],
    related_measures := ["measure-trans-1"] }

def issue_safety : Issue :=
  { id := "safety", name := "Public Safety", icon := "Shield",
    description := "Police reform, crime prevention, and community safety",
    count := 1089, related_offices := ["sheriff", "mayor"],
    related_measures := ["measure-safety-1", "measure-immigration-1"] }

def issue_economy : Issue :=
  { id := "economy", name := "Economy", icon := "DollarSign",
    description := "Jobs, minimum wage, and economic development",
    count := 1298, related_offices := ["city-council", "mayor"],
    related_measures := ["measure-env-1", "measure-housing-1", "measure-tax-1"] }

def issue_infrastructure : Issue :=
  { id := "infrastructure", name := "Infrastructure", icon := "Construction",
    description := "Roads, bridges, water systems, and public facilities",
    count := 567, related_offices := ["city-council", "transit-board"],
    related_measures := ["measure-edu-1", "measure-trans-1", "measure-tax-1"] }

def issue_immigration : Issue :=
  { id := "immigration", name := "Immigration", icon := "Users",
    description := "Immigration policy and immigrant services",
    count := 432, related_offices := ["city-council-general"],
    related_measures := ["measure-immigration-1"] }

def issue_taxes : Issue :=
  { id := "taxes", name := "Taxes", icon := "Calculator",
    description := "Tax policy, rates, and government spending",
    count := 789, related_offices := ["city-council-general"],
    related_measures := ["measure-tax-1"] }

def issue_rights : Issue :=
  { id := "rights", name := "Civil Rights", icon := "Scale",
    description := "Equality, discrimination, and civil liberties",
    count := 923, related_offices := ["sheriff"],
    related_measures := ["measure-safety-1", "measure-immigration-1"] }

def issue_seniors : Issue :=
  { id := "seniors", name := "Senior Services", icon := "UserCheck",
    description := "Elder care, social security, and senior programs",
    count := 445, related_offices := ["county-commissioner"],
    related_measures := ["measure-healthcare-1"] }

def demo_issues : List (String × Issue) :=
  [("housing", issue_housing), ("education", issue_education),
   ("healthcare", issue_healthcare), ("environment", issue_environment),
   ("transportation", issue_transportation), ("safety", issue_safety),
   ("economy", issue_economy), ("infrastructure", issue_infrastructure),
   ("immigration", issue_immigration), ("taxes", issue_taxes),
   ("rights", issue_rights), ("seniors", issue_seniors)]

def office_city_council : Office :=
  { id := "city-council", name := "City Council", description := "District Representative",
    explanation := "City Council members vote on zoning laws, affordable housing projects, and rent control policies that directly affect housing costs in your neighborhood.",
    level := "local", related_issues := ["housing", "economy", "infrastructure"] }

def office_school_board : Office :=
  { id := "school-board", name := "School Board", description := "District Trustee",
    explanation := "School Board members decide on curriculum, teacher hiring, school funding allocation, and policies that shape your local schools.",
    level := "local", related_issues := ["education"] }

def office_county_commissioner : Office :=
  { id := "county-commissioner", name := "County Commissioner", description := "Public Health District",
    explanation := "County Commissioners oversee public health departments, mental health services, and healthcare access programs in your area.",
    level := "local", related_issues := ["healthcare", "seniors"] }

def office_mayor : Office :=
  { id := "mayor", name := "Mayor", description := "City Executive",
    explanation := "The Mayor sets environmental policy priorities, oversees sustainability initiatives, and can influence green infrastructure projects.",
    level := "local", related_issues := ["environment", "safety", "economy"] }

def office_transit_board : Office :=
  { id := "transit-board", name := "Transit Authority Board", description := "Transportation District",
    explanation := "Transit Board members make decisions about bus routes, subway expansions, bike lanes, and public transportation funding.",
    level := "local", related_issues := ["transportation", "environment", "infrastructure"] }

def office_sheriff : Office :=
  { id := "sheriff", name := "County Sheriff", description := "Law Enforcement",
    explanation := "The Sheriff oversees county law enforcement, jail operations, and community policing strategies that affect public safety.",
    level := "local", related_issues := ["safety", "rights"] }

def office_city_council_general : Office :=
  { id := "city-council-general", name := "City Council", description := "At-Large Representative",
    explanation := "City Council members vote on policies and budgets that affect various community issues.",
    level := "local", related_issues := ["immigration", "taxes"] }

def demo_offices : List (String × Office) :=
  [("city-council", office_city_council), ("school-board", office_school_board),
   ("county-commissioner", office_county_commissioner), ("mayor", office_mayor),
   ("transit-board", office_transit_board), ("sheriff", office_sheriff),
   ("city-council-general", office_city_council_general)]

def measure_edu_1 : BallotMeasure :=
  { id := "measure-edu-1", title := "School Bond Initiative - Measure A",
    description := "Authorizes $500 million in bonds to modernize school facilities, upgrade technology infrastructure, and improve safety systems across all district schools.",
    category := "Education",
    impact := "Would increase property taxes by approximately $45 per year for the average homeowner",
    related_issues := ["education", "infrastructure"] }

def measure_trans_1 : BallotMeasure :=
  { id := "measure-trans-1", title := "Public Transit Expansion - Measure B",
    description := "Funds the extension of light rail service to underserved communities and increases bus frequency during peak hours.",
    category := "Transportation",
    impact := "Would provide improved transit access to 25,000 additional residents",
    related_issues := ["transportation", "environment", "infrastructure"] }

def measure_env_1 : BallotMeasure :=
  { id := "measure-env-1", title := "Clean Energy Initiative - Measure C",
    description := "Requires the city to transition to 100% renewable energy by 2030 and establishes a green jobs training program.",
    category := "Environment",
    impact := "Would create an estimated 500 new green jobs over the next 5 years",
    related_issues := ["environment", "economy"] }

def measure_housing_1 : BallotMeasure :=
  { id := "measure-housing-1", title := "Affordable Housing Development - Measure D",
    description := "Allocates $300 million for affordable housing construction and first-time homebuyer assistance programs.",
    category := "Housing",
    impact := "Would create 2,000 new affordable housing units over 5 years",
    related_issues := ["housing", "economy"] }

def measure_safety_1 : BallotMeasure :=
  { id := "measure-safety-1", title := "Community Safety Reform - Measure E",
    description := "Establishes community policing programs, crisis intervention teams, and civilian oversight board for law enforcement accountability.",
    category := "Public Safety",
    impact := "Would reallocate 15% of police budget to community safety programs",
    related_issues := ["safety", "rights"] }

def measure_healthcare_1 : BallotMeasure :=
  { id := "measure-healthcare-1", title := "Public Health Expansion - Measure F",
    description := "Funds community health centers, mental health services, and senior wellness programs in underserved areas.",
    category := "Healthcare",
    impact := "Would provide healthcare access to 15,000 additional residents",
    related_issues := ["healthcare", "seniors"] }

def measure_tax_1 : BallotMeasure :=
  { id := "measure-tax-1", title := "Progressive Business Tax - Measure G",
    description := "Implements graduated tax rate for businesses based on revenue to fund essential city services and infrastructure.",
    category := "Taxation",
    impact := "Would generate $50 million annually for city services",
    related_issues := ["taxes", "economy", "infrastructure"] }

def measure_immigration_1 : BallotMeasure :=
  { id := "measure-immigration-1", title := "Sanctuary City Protection - Measure H",
    description := "Strengthens protections for immigrant communities and prohibits local cooperation with federal immigration enforcement.",
    category := "Immigration",
    impact := "Would provide legal protection and support services for immigrant families",
    related_issues := ["immigration", "rights", "safety"] }

def demo_ballot_measures : List (String × BallotMeasure) :=
  [("measure-edu-1", measure_edu_1), ("measure-trans-1", measure_trans_1),
   ("measure-env-1", measure_env_1), ("measure-housing-1", measure_housing_1),
   ("measure-safety-1", measure_safety_1), ("measure-healthcare-1", measure_healthcare_1),
   ("measure-tax-1", measure_tax_1), ("measure-immigration-1", measure_immigration_1)]

def candidate_1 : Candidate :=
  { id := "candidate-1", name := "Sarah Chen", party := "Democratic",
    photo := "https://api.dicebear.com/7.x/avataaars/svg?seed=sarah",
    positions :=
      ["Supports affordable housing initiatives and rent stabilization",
       "Advocates for increased funding for public education",
       "Champions climate action and renewable energy programs"],
    office_id := "city-council",
    related_issues := ["housing", "education", "environment"] }

def candidate_2 : Candidate :=
  { id := "candidate-2", name := "Marcus Johnson", party := "Republican",
    photo := "https://api.dicebear.com/7.x/avataaars/svg?seed=marcus",
    positions :=
      ["Focuses on reducing regulations for small businesses",
       "Supports traditional law enforcement approaches",
       "Advocates for fiscal responsibility in city budgeting"],
    office_id := "city-council",
    related_issues := ["economy", "safety", "taxes"] }

def candidate_3 : Candidate :=
  { id := "candidate-3", name := "Elena Rodriguez", party := "Independent",
    photo := "https://api.dicebear.com/7.x/avataaars/svg?seed=elena",
    positions :=
      ["Prioritizes community-driven solutions to local issues",
       "Supports sustainable transportation and infrastructure",
       "Advocates for transparent government and citizen engagement"],
    office_id := "mayor",
    related_issues := ["transportation", "infrastructure", "rights"] }

def demo_candidates : List (String × Candidate) :=
  [("candidate-1", candidate_1), ("candidate-2", candidate_2),
   ("candidate-3", candidate_3)]

/-! ### Relationship establishment (`_establish_relationships`, lines 449-518) -/

/-- One step of the office pass: `if issue_id in self.issues` and the office
id is not yet present, append it to that issue's `related_offices`. -/
def addOfficeToIssue (issues : List (String × Issue)) (issue_id office_id : String) :
    List (String × Issue) :=
  issues.map (fun p =>
    if p.1 = issue_id ∧ office_id ∉ p.2.related_offices then
      (p.1, { p.2 with related_offices := p.2.related_offices ++ [office_id] })
    else p)

/-- One step of the ballot-measure pass, appending to `related_measures`. -/
def addMeasureToIssue (issues : List (String × Issue)) (issue_id measure_id : String) :
    List (String × Issue) :=
  issues.map (fun p =>
    if p.1 = issue_id ∧ measure_id ∉ p.2.related_measures then
      (p.1, { p.2 with related_measures := p.2.related_measures ++ [measure_id] })
    else p)

/-- `_establish_relationships`: for each office (then each ballot measure), add
its id to the `related_offices` (resp. `related_measures`) array of every issue
it references, skipping missing issues and duplicates. -/
def establish_relationships (s : IssueDataStore) : IssueDataStore :=
  let issues1 := s.offices.foldl
    (fun acc p => p.2.related_issues.foldl (fun acc2 iid => addOfficeToIssue acc2 iid p.1) acc)
    s.issues
  let issues2 := s.ballot_measures.foldl
    (fun acc p => p.2.related_issues.foldl (fun acc2 iid => addMeasureToIssue acc2 iid p.1) acc)
    issues1
  { s with issues := issues2 }

/-- `_load_demo_data`: install the demo dicts, establish relationships, then
set `total_users = len(demo_issues) * 100`.  `user_sessions` is untouched. -/
def load_demo_data (s : IssueDataStore) : IssueDataStore :=
  let s1 := establish_relationships
    { s with issues := demo_issues, offices := demo_offices,
             ballot_measures := demo_ballot_measures, candidates := demo_candidates }
  { s1 with total_users := demo_issues.length * 100 }

/-- The store produced by `IssueDataStore.__init__`. -/
def initStore : IssueDataStore :=
  load_demo_data
    { issues := [], offices := [], ballot_measures := [], candidates := [],
      total_users := 0, user_sessions := ∅ }

/-- `reset_to_demo_data` (lines 778-829): clear every field, then reload the
demo data. -/
def reset_to_demo_data (s : IssueDataStore) : IssueDataStore :=
  load_demo_data
    { s with issues := [], offices := [], ballot_measures := [], candidates := [],
             user_sessions := ∅, total_users := 0 }

/-! ### Increment and reads (`increment_issues`, `get_total_users`) -/

/-- Python truthiness of the optional `user_id` argument: `None` and the empty
string are falsy. -/
def uTruthy : Option String → Bool
  | none => false
  | some u => u != ""

/-- The underlying string of an optional `user_id` (only meaningful when
`uTruthy` holds). -/
def uVal : Option String → String
  | none => ""
  | some u => u

/-- `self.issues[issue_id]["count"] += 1` for one id, leaving other entries
unchanged. -/
def bumpCount (issues : List (String × Issue)) (i : String) : List (String × Issue) :=
  issues.map (fun p =>
    if p.1 = i then (p.1, { p.2 with count := p.2.count + 1 }) else p)

/-- The `for issue_id in issue_ids` loop of `increment_issues` (lines 761-768):
returns the updated issues dict together with `updated_issues`, the list of
ids that resolved (in order). -/
def incrementLoop : List (String × Issue) → List String → List (String × Issue) × List String
  | issues, [] => (issues, [])
  | issues, i :: rest =>
    if dictContains issues i then
      ((incrementLoop (bumpCount issues i) rest).1,
       i :: (incrementLoop (bumpCount issues i) rest).2)
    else
      incrementLoop issues rest

/-- `increment_issues(issue_ids, user_id)` (lines 737-776).  Returns the new
store together with the success flag.  The three stages of the source:
validation (`not issue_ids`), the duplicate check (`user_id and user_id in
self.user_sessions`), then the increment loop followed by unconditional
session tracking and `total_users += 1`. -/
def increment_issues (s : IssueDataStore) (issue_ids : List String)
    (user_id : Option String) : IssueDataStore × Bool :=
  if issue_ids = [] then (s, false)
  else if uTruthy user_id = true ∧ uVal user_id ∈ s.user_sessions then (s, false)
  else
    ({ s with issues := (incrementLoop s.issues issue_ids).1,
              user_sessions :=
                if uTruthy user_id = true then insert (uVal user_id) s.user_sessions
                else s.user_sessions,
              total_users := s.total_users + 1 },
     decide (0 < (incrementLoop s.issues issue_ids).2.length))

/-- `get_total_users` (lines 831-838). -/
def get_total_users (s : IssueDataStore) : Nat :=
  s.total_users

/-! ### Relationship queries (`get_offices_by_issues`,
`get_candidates_by_issues`, lines 524-686) -/

/-- `set.update`: add the elements of `new` that are not yet present.  This
models the Python `set` of office ids as an insertion-ordered duplicate-free
list (the source iterates the set in an unspecified order; this fixes one). -/
def setUpdate (acc : List String) (new : List String) : List String :=
  new.foldl (fun a x => if x ∈ a then a else a ++ [x]) acc

/-- `get_offices_by_issues`: collect the union of the `related_offices` sets of
the existing requested issues, then return the office objects that exist for
those ids. -/
def get_offices_by_issues (s : IssueDataStore) (issue_ids : List String) : List Office :=
  if issue_ids = [] then []
  else
    let relevant_office_ids : List String :=
      issue_ids.foldl (fun acc iid =>
        match dictLookup s.issues iid with
        | some issue => setUpdate acc issue.related_offices
        | none => acc) []
    relevant_office_ids.filterMap (fun oid => dictLookup s.offices oid)

/-- The body of the `for candidate_id, candidate_data in self.candidates`
loop of `get_candidates_by_issues`: emit the candidate if its own
`related_issues` meets `issue_ids` (the `continue` path), or else if its
`office_id` is truthy, exists, and that office's `related_issues` meets
`issue_ids`. -/
def candidateEmit (s : IssueDataStore) (issue_ids : List String)
    (p : String × Candidate) : Option Candidate :=
  if ∃ i ∈ issue_ids, i ∈ p.2.related_issues then some p.2
  else if p.2.office_id ≠ "" then
    match dictLookup s.offices p.2.office_id with
    | some office =>
      if ∃ i ∈ issue_ids, i ∈ office.related_issues then some p.2 else none
    | none => none
  else none

/-- `get_candidates_by_issues` (lines 632-686): one pass over the candidates
dict, emitting each matching candidate once. -/
def get_candidates_by_issues (s : IssueDataStore) (issue_ids : List String) : List Candidate :=
  if issue_ids = [] then []
  else s.candidates.filterMap (candidateEmit s issue_ids)

/-! ### Supabase-backed candidate queries (`supabase_client.py`) and the
`/api/candidates` route (`app.py`, lines 472-532).

The database tables are modelled as lists of rows; a PostgreSQL
`related_issues && ARRAY[...]` filter is array overlap, and
`office_id in (...)` is list membership, both preserving table order. -/

structure SupabaseDB where
  issues : List Issue
  offices : List Office
  ballot_measures : List BallotMeasure
  candidates : List Candidate
deriving DecidableEq

/-- PostgreSQL array-overlap operator `&&` (query filter `'ov'`). -/
def arrayOverlaps (a b : List String) : Bool :=
  a.any (fun x => b.contains x)

/-- `SupabaseDataStore.get_offices_by_issues`: offices whose `related_issues`
overlaps the requested ids (empty input short-circuits to `[]`). -/
def sb_get_offices_by_issues (db : SupabaseDB) (issue_ids : List String) : List Office :=
  if issue_ids = [] then []
  else db.offices.filter (fun o => arrayOverlaps o.related_issues issue_ids)

/-- `SupabaseDataStore.get_candidates_by_offices` (lines 389-417): candidates
whose `office_id` is among the requested office ids. -/
def sb_get_candidates_by_offices (db : SupabaseDB) (office_ids : List String) : List Candidate :=
  if office_ids = [] then []
  else db.candidates.filter (fun c => c.office_id ∈ office_ids)

/-- The `seen_ids` deduplication loop of
`SupabaseDataStore.get_candidates_by_issues`: keep the first occurrence of
each candidate id. -/
def dedupById : List Candidate → List String → List Candidate
  | [], _ => []
  | c :: rest, seen =>
    if c.id ∈ seen then dedupById rest seen
    else c :: dedupById rest (c.id :: seen)

/-- `SupabaseDataStore.get_candidates_by_issues`: direct matches on
`related_issues`, plus candidates of offices matched through
`get_offices_by_issues`, deduplicated by id. -/
def sb_get_candidates_by_issues (db : SupabaseDB) (issue_ids : List String) : List Candidate :=
  if issue_ids = [] then []
  else
    let direct_candidates := db.candidates.filter
      (fun c => arrayOverlaps c.related_issues issue_ids)
    let relevant_offices := sb_get_offices_by_issues db issue_ids
    let office_ids := relevant_offices.map Office.id
    let office_candidates :=
      if office_ids = [] then []
      else db.candidates.filter (fun c => c.office_id ∈ office_ids)
    dedupById (direct_candidates ++ office_candidates) []

/-- The comma-separated query-parameter parse used by the route:
`[x.strip() for x in param.split(',') if x.strip()]`. -/
def parseIds (param : String) : List String :=
  ((param.splitOn ",").map String.trim).filter (fun x => x ≠ "")

/-- The `/api/candidates` handler (`app.py`, `get_candidates`): the office
filter is tried first, then the issue filter, else all candidates. -/
def get_candidates_endpoint (db : SupabaseDB) (issues_param offices_param : String) :
    List Candidate :=
  if offices_param ≠ "" then
    sb_get_candidates_by_offices db (parseIds offices_param)
  else if issues_param ≠ "" then
    sb_get_candidates_by_issues db (parseIds issues_param)
  else
    db.candidates

/-- The seeded database corresponding to the demo dataset. -/
def demoDB : SupabaseDB :=
  { issues := demo_issues.map Prod.snd,
    offices := demo_offices.map Prod.snd,
    ballot_measures := demo_ballot_measures.map Prod.snd,
    candidates := demo_candidates.map Prod.snd }

/-! ### Dictionary lemmas -/

theorem dictLookup_mem {α : Type} {d : List (String × α)} {k : String} {v : α}
    (h : dictLookup d k = some v) : (k, v) ∈ d := by
  induction d with
  | nil => simp [dictLookup] at h
  | cons p rest ih =>
    by_cases hk : p.1 = k
    · simp [dictLookup, hk] at h
      subst hk
      subst h
      exact List.mem_cons_self _ _
    · simp [dictLookup, hk] at h
      exact List.mem_cons_of_mem _ (ih h)

theorem mem_dictLookup_of_nodup {α : Type} {d : List (String × α)} {k : String} {v : α}
    (hnodup : (d.map Prod.fst).Nodup) (h : (k, v) ∈ d) : dictLookup d k = some v := by
  induction d with
  | nil => simp at h
  | cons p rest ih =>
    simp only [List.map_cons, List.nodup_cons] at hnodup
    rcases List.mem_cons.mp h with h1 | h1
    · subst h1
      simp [dictLookup]
    · have hk : p.1 ≠ k := by
        intro hk
        exact hnodup.1 (hk ▸ (List.mem_map.mpr ⟨(k, v), h1, rfl⟩))
      simp [dictLookup, hk]
      exact ih hnodup.2 h1

theorem dictLookup_isSome_iff {α : Type} {d : List (String × α)} {k : String} :
    (dictLookup d k).isSome = true ↔ ∃ v, dictLookup d k = some v := by
  cases h : dictLookup d k <;> simp [h]

/-! ### Increment lemmas -/

theorem bumpCount_cons (p : String × Issue) (rest : List (String × Issue)) (i : String) :
    bumpCount (p :: rest) i =
      (if p.1 = i then (p.1, { p.2 with count := p.2.count + 1 }) else p) :: bumpCount rest i := by
  simp [bumpCount]

theorem dictLookup_bumpCount (d : List (String × Issue)) (i j : String) :
    dictLookup (bumpCount d i) j =
      if j = i then (dictLookup d j).map (fun iss => { iss with count := iss.count + 1 })
      else dictLookup d j := by
  induction d with
  | nil =>
    by_cases h : j = i <;> simp [bumpCount, dictLookup, h]
  | cons p rest ih =>
    rw [bumpCount_cons]
    by_cases hpj : p.1 = j
    · subst hpj
      by_cases hpi : p.1 = i
      · subst hpi
        simp [dictLookup]
      · simp [dictLookup, hpi, fun h => hpi (Eq.symm h)]
    · by_cases hpi : p.1 = i
      · subst hpi
        have hji : ¬j = p.1 := fun h => hpj h.symm
        simp [dictLookup, hpj, hji, ih]
      · simp [dictLookup, hpi, hpj, ih]

theorem dictContains_bumpCount (d : List (String × Issue)) (i j : String) :
    dictContains (bumpCount d i) j = dictContains d j := by
  unfold dictContains
  rw [dictLookup_bumpCount]
  by_cases h : j = i
  · subst h
    simp only [if_pos rfl]
    cases dictLookup d j <;> simp
  · simp [h]

theorem incrementLoop_snd (ids : List String) (d : List (String × Issue)) :
    (incrementLoop d ids).2 = ids.filter (fun i => dictContains d i) := by
  induction ids generalizing d with
  | nil => simp [incrementLoop]
  | cons i rest ih =>
    by_cases h : dictContains d i = true
    · rw [incrementLoop, if_pos h, List.filter_cons_of_pos h]
      dsimp only
      rw [ih]
      congr 1
      apply List.filter_congr
      intro a _
      rw [dictContains_bumpCount]
    · rw [incrementLoop, if_neg h, List.filter_cons_of_neg (by simpa using h)]
      exact ih d

theorem incrementLoop_fst_lookup (ids : List String) (d : List (String × Issue))
    (j : String) (iss : Issue) (h : dictLookup d j = some iss) :
    dictLookup (incrementLoop d ids).1 j =
      some { iss with count := iss.count + ids.count j } := by
  induction ids generalizing d iss with
  | nil =>
    simp [incrementLoop, h]
  | cons i rest ih =>
    by_cases hc : dictContains d i = true
    · rw [incrementLoop, if_pos hc]
      dsimp only
      by_cases hji : j = i
      · subst hji
        have h1 : dictLookup (bumpCount d j) j =
            some { iss with count := iss.count + 1 } := by
          rw [dictLookup_bumpCount]
          simp [h]
        rw [ih (bumpCount d j) _ h1]
        have h3 : (j :: rest).count j = rest.count j + 1 := by
          simp [List.count_cons]
        rw [h3, show iss.count + 1 + rest.count j = iss.count + (rest.count j + 1) from by omega]
      · have h1 : dictLookup (bumpCount d i) j = some iss := by
          rw [dictLookup_bumpCount]
          simp [hji, h]
        rw [ih (bumpCount d i) _ h1]
        have h3 : (i :: rest).count j = rest.count j := by
          simp [List.count_cons, hji]
        rw [h3]
    · have hji : j ≠ i := by
        intro hji
        subst hji
        rw [dictContains, h] at hc
        simp at hc
      rw [incrementLoop, if_neg hc]
      rw [ih d _ h]
      have h3 : (i :: rest).count j = rest.count j := by
        simp [List.count_cons, hji]
      rw [h3]

/-- Behaviour of `increment_issues` on a call that passes validation and the
duplicate check. -/
theorem increment_issues_spec (s : IssueDataStore) (ids : List String)
    (u : Option String) (hne : ids ≠ [])
    (hdup : ¬(uTruthy u = true ∧ uVal u ∈ s.user_sessions)) :
    increment_issues s ids u =
      ({ s with issues := (incrementLoop s.issues ids).1,
                user_sessions :=
                  if uTruthy u = true then insert (uVal u) s.user_sessions
                  else s.user_sessions,
                total_users := s.total_users + 1 },
       decide (0 < (ids.filter (fun i => dictContains s.issues i)).length)) := by
  unfold increment_issues
  rw [if_neg hne, if_neg hdup, incrementLoop_snd]

/-- The success flag of a non-rejected call is true iff some id resolves. -/
theorem increment_issues_snd_iff (s : IssueDataStore) (ids : List String)
    (u : Option String) (hne : ids ≠ [])
    (hdup : ¬(uTruthy u = true ∧ uVal u ∈ s.user_sessions)) :
    (increment_issues s ids u).2 = true ↔ ∃ i ∈ ids, dictContains s.issues i := by
  rw [increment_issues_spec s ids u hne hdup]
  simp only [decide_eq_true_eq]
  rw [List.length_pos]
  constructor
  · intro h
    rcases List.exists_mem_of_ne_nil _ h with ⟨i, hi⟩
    have hm := List.mem_filter.mp hi
    exact ⟨i, hm.1, hm.2⟩
  · rintro ⟨i, hi, hc⟩
    intro hnil
    have hm : i ∈ ids.filter (fun i => dictContains s.issues i) :=
      List.mem_filter.mpr ⟨hi, hc⟩
    rw [hnil] at hm
    simp at hm

/-- A rejected duplicate call returns the store unchanged with `False`. -/
theorem increment_issues_duplicate (s : IssueDataStore) (ids : List String)
    (u : String) (hu : u ≠ "") (hmem : u ∈ s.user_sessions) :
    increment_issues s ids (some u) = (s, false) := by
  unfold increment_issues
  by_cases hne : ids = []
  · rw [if_pos hne]
  · rw [if_neg hne, if_pos ⟨by simp [uTruthy, hu], hmem⟩]

/-- `reset_to_demo_data` produces the same store as `__init__`, whatever the
state it starts from. -/
theorem reset_eq_initStore (s : IssueDataStore) :
    reset_to_demo_data s = initStore := by
  cases s
  rfl

/-! ### Well-formedness: the session set never contains the empty string,
because `increment_issues` only adds a `user_id` after the truthiness check
`if user_id:`. -/

theorem initStore_wf : "" ∉ initStore.user_sessions := by
  decide

theorem increment_preserves_wf (s : IssueDataStore) (ids : List String)
    (u : Option String) (h : "" ∉ s.user_sessions) :
    "" ∉ (increment_issues s ids u).1.user_sessions := by
  unfold increment_issues
  by_cases hne : ids = []
  · rw [if_pos hne]
    exact h
  · rw [if_neg hne]
    by_cases hdup : uTruthy u = true ∧ uVal u ∈ s.user_sessions
    · rw [if_pos hdup]
      exact h
    · rw [if_neg hdup]
      by_cases ht : uTruthy u = true
      · simp only [ht, if_pos]
        intro hmem
        rcases Finset.mem_insert.mp hmem with h1 | h1
        · cases u with
          | none => simp [uTruthy] at ht
          | some v =>
            rw [uVal] at h1
            rw [uTruthy, bne_iff_ne] at ht
            exact ht h1.symm
        · exact h h1
      · simp only [ht, if_neg, if_false]
        exact h

theorem reset_preserves_wf (s : IssueDataStore) :
    "" ∉ (reset_to_demo_data s).user_sessions := by
  rw [reset_eq_initStore]
  exact initStore_wf

/-! ### Office-query lemmas -/

theorem mem_setUpdate (acc new : List String) (x : String) :
    x ∈ setUpdate acc new ↔ x ∈ acc ∨ x ∈ new := by
  induction new generalizing acc with
  | nil => simp [setUpdate]
  | cons y rest ih =>
    show x ∈ setUpdate (if y ∈ acc then acc else acc ++ [y]) rest ↔ _
    rw [ih]
    by_cases hy : y ∈ acc
    · rw [if_pos hy]
      constructor
      · rintro (h | h)
        · exact Or.inl h
        · exact Or.inr (List.mem_cons_of_mem _ h)
      · rintro (h | h)
        · exact Or.inl h
        · rcases List.mem_cons.mp h with h1 | h1
          · exact Or.inl (h1 ▸ hy)
          · exact Or.inr h1
    · rw [if_neg hy]
      constructor
      · rintro (h | h)
        · rcases List.mem_append.mp h with h1 | h1
          · exact Or.inl h1
          · exact Or.inr (List.mem_cons.mpr (Or.inl (List.mem_singleton.mp h1)))
        · exact Or.inr (List.mem_cons_of_mem _ h)
      · rintro (h | h)
        · exact Or.inl (List.mem_append.mpr (Or.inl h))
        · rcases List.mem_cons.mp h with h1 | h1
          · exact Or.inl (List.mem_append.mpr (Or.inr (List.mem_singleton.mpr h1)))
          · exact Or.inr h1

/-- Membership in `get_offices_by_issues` for a single requested issue id,
given a store whose office-issue index is symmetric, whose office
`related_issues` entries all exist, and whose office dict has unique keys. -/
theorem mem_get_offices_by_issues_single (s : IssueDataStore) (I : String) (o : Office)
    (hsymm : ∀ p ∈ s.offices, ∀ q ∈ s.issues,
      (q.1 ∈ p.2.related_issues ↔ p.1 ∈ q.2.related_offices))
    (hclosed : ∀ p ∈ s.offices, ∀ j ∈ p.2.related_issues, dictContains s.issues j = true)
    (hnodupO : (s.offices.map Prod.fst).Nodup) :
    o ∈ get_offices_by_issues s [I] ↔
      o ∈ s.offices.map Prod.snd ∧ I ∈ o.related_issues := by
  have hrel : get_offices_by_issues s [I] =
      (match dictLookup s.issues I with
       | some issue => setUpdate [] issue.related_offices
       | none => []).filterMap (fun oid => dictLookup s.offices oid) := by
    rw [get_offices_by_issues, if_neg (by simp)]
    rfl
  rw [hrel]
  constructor
  · intro hmem
    rcases List.mem_filterMap.mp hmem with ⟨oid, hoid, hlk⟩
    have hpair : (oid, o) ∈ s.offices := dictLookup_mem hlk
    refine ⟨List.mem_map.mpr ⟨(oid, o), hpair, rfl⟩, ?_⟩
    cases hI : dictLookup s.issues I with
    | none => rw [hI] at hoid; simp at hoid
    | some issI =>
      rw [hI] at hoid
      have hoid2 : oid ∈ issI.related_offices := by
        rcases (mem_setUpdate [] issI.related_offices oid).mp hoid with h1 | h1
        · simp at h1
        · exact h1
      have hqmem : (I, issI) ∈ s.issues := dictLookup_mem hI
      exact (hsymm (oid, o) hpair (I, issI) hqmem).mpr hoid2
  · rintro ⟨hmem, hrelated⟩
    rcases List.mem_map.mp hmem with ⟨p, hp, hpo⟩
    have hcont : dictContains s.issues I = true := by
      apply hclosed p hp
      rw [hpo]
      exact hrelated
    rcases dictLookup_isSome_iff.mp hcont with ⟨issI, hI⟩
    have hqmem : (I, issI) ∈ s.issues := dictLookup_mem hI
    have hoid : p.1 ∈ issI.related_offices := by
      apply (hsymm p hp (I, issI) hqmem).mp
      rw [hpo]
      exact hrelated
    apply List.mem_filterMap.mpr
    refine ⟨p.1, ?_, ?_⟩
    · rw [hI]
      exact (mem_setUpdate [] issI.related_offices p.1).mpr (Or.inr hoid)
    · rw [← hpo]
      exact mem_dictLookup_of_nodup hnodupO (by simpa using hp)

/-! ### Candidate-query lemmas -/

/-- When the per-candidate loop body emits a candidate, it is this exact
candidate, and exactly when one of the two match conditions holds. -/
theorem candidateEmit_eq_some (s : IssueDataStore) (ids : List String)
    (p : String × Candidate) (c : Candidate) :
    candidateEmit s ids p = some c ↔
      (c = p.2 ∧ ((∃ i ∈ ids, i ∈ p.2.related_issues) ∨
        (p.2.office_id ≠ "" ∧ ∃ o, dictLookup s.offices p.2.office_id = some o ∧
          ∃ i ∈ ids, i ∈ o.related_issues))) := by
  unfold candidateEmit
  by_cases h1 : ∃ i ∈ ids, i ∈ p.2.related_issues
  · rw [if_pos h1]
    simp [h1, eq_comm]
  · rw [if_neg h1]
    by_cases h2 : p.2.office_id ≠ ""
    · rw [if_pos h2]
      cases hl : dictLookup s.offices p.2.office_id with
      | none => simp [h1, h2, hl]
      | some office =>
        by_cases h3 : ∃ i ∈ ids, i ∈ office.related_issues
        · simp [h1, h2, hl, h3, eq_comm]
        · simp [h1, h2, hl, h3]
    · rw [if_neg h2]
      simp [h1, h2]

theorem candidateEmit_some_snd (s : IssueDataStore) (ids : List String)
    (p : String × Candidate) (c : Candidate) (h : candidateEmit s ids p = some c) :
    c = p.2 :=
  ((candidateEmit_eq_some s ids p c).mp h).1

theorem filterMap_candidateEmit_id_sublist (s : IssueDataStore) (ids : List String) :
    ∀ l : List (String × Candidate),
      ((l.filterMap (candidateEmit s ids)).map Candidate.id).Sublist
        (l.map (fun p => p.2.id)) := by
  intro l
  induction l with
  | nil => simp
  | cons p rest ih =>
    cases h : candidateEmit s ids p with
    | none =>
      rw [List.filterMap_cons_none h, List.map_cons]
      exact ih.cons _
    | some c =>
      rw [List.filterMap_cons_some h, List.map_cons, List.map_cons,
        candidateEmit_some_snd s ids p c h]
      exact ih.cons₂ _

/-- Membership in `get_candidates_by_issues`: exactly the candidates with a
direct issue match or an office-mediated issue match. -/
theorem mem_get_candidates_by_issues (s : IssueDataStore) (ids : List String)
    (c : Candidate) :
    c ∈ get_candidates_by_issues s ids ↔
      c ∈ s.candidates.map Prod.snd ∧
        ((∃ i ∈ ids, i ∈ c.related_issues) ∨
         (c.office_id ≠ "" ∧ ∃ o, dictLookup s.offices c.office_id = some o ∧
           ∃ i ∈ ids, i ∈ o.related_issues)) := by
  unfold get_candidates_by_issues
  by_cases hne : ids = []
  · subst hne
    simp
  · rw [if_neg hne, List.mem_filterMap]
    constructor
    · rintro ⟨p, hp, he⟩
      rcases (candidateEmit_eq_some s ids p c).mp he with ⟨hc, hcond⟩
      subst hc
      exact ⟨List.mem_map.mpr ⟨p, hp, rfl⟩, hcond⟩
    · rintro ⟨hmem, hcond⟩
      rcases List.mem_map.mp hmem with ⟨p, hp, hpo⟩
      refine ⟨p, hp, (candidateEmit_eq_some s ids p c).mpr ⟨hpo.symm, ?_⟩⟩
      rw [hpo]
      exact hcond

/-- If the candidate ids in the store are pairwise distinct, each candidate
appears at most once in the result of `get_candidates_by_issues`. -/
theorem get_candidates_by_issues_id_nodup (s : IssueDataStore) (ids : List String)
    (hnodup : (s.candidates.map (fun p => p.2.id)).Nodup) :
    ((get_candidates_by_issues s ids).map Candidate.id).Nodup := by
  unfold get_candidates_by_issues
  by_cases hne : ids = []
  · simp [hne]
  · rw [if_neg hne]
    exact (filterMap_candidateEmit_id_sublist s ids s.candidates).nodup hnodup

/-! ### Endpoint lemmas (`/api/candidates`) -/

theorem endpoint_office_filter (db : SupabaseDB) (issues_param offices_param : String)
    (hoff : offices_param ≠ "") :
    get_candidates_endpoint db issues_param offices_param =
      db.candidates.filter (fun c => c.office_id ∈ parseIds offices_param) := by
  unfold get_candidates_endpoint
  rw [if_pos hoff]
  unfold sb_get_candidates_by_offices
  by_cases h : parseIds offices_param = []
  · rw [if_pos h, h]
    simp
  · rw [if_neg h]

/-! ### Claims -/

/-- C1: for every call to `increment_issues(issue_ids, user_id)` with a
non-empty id list, on a store whose session set never contains the empty
string (an invariant of every reachable store), the returned success flag is
true iff at least one id resolves to an existing issue and the provided
`user_id` was not already in the duplicate-tracking session set. -/
theorem C1_increment_success_iff (s : IssueDataStore) (ids : List String)
    (u : Option String) (hwf : "" ∉ s.user_sessions) (hne : ids ≠ []) :
    (increment_issues s ids u).2 = true ↔
      ((∃ i ∈ ids, dictContains s.issues i = true) ∧
       ∀ x, u = some x → x ∉ s.user_sessions) := by
  by_cases hdup : uTruthy u = true ∧ uVal u ∈ s.user_sessions
  · unfold increment_issues
    rw [if_neg hne, if_pos hdup]
    cases u with
    | none => simp [uTruthy] at hdup
    | some x =>
      constructor
      · intro h
        simp at h
      · rintro ⟨-, hforall⟩
        exact absurd hdup.2 (hforall x rfl)
  · rw [increment_issues_snd_iff s ids u hne hdup]
    constructor
    · intro hex
      refine ⟨hex, ?_⟩
      intro x hx hmem
      subst hx
      by_cases hx0 : x = ""
      · subst hx0
        exact hwf hmem
      · exact hdup ⟨by simp [uTruthy, hx0], hmem⟩
    · rintro ⟨hex, -⟩
      exact hex

/-- Witness for C1 at the seeded store, the list `["housing"]` and a fresh
user id. -/
theorem C1_witness :
    ("" ∉ initStore.user_sessions) ∧ ((["housing"] : List String) ≠ []) ∧
    ((increment_issues initStore ["housing"] (some "user-1")).2 = true ↔
      ((∃ i ∈ (["housing"] : List String), dictContains initStore.issues i = true) ∧
       ∀ x, (some "user-1" : Option String) = some x → x ∉ initStore.user_sessions)) :=
  ⟨by decide, by decide,
   C1_increment_success_iff initStore ["housing"] (some "user-1") (by decide) (by decide)⟩

/-- C2 counterexample: a call whose only id does not resolve returns failure
but still increments the total-participants counter, contradicting the claim
that the counter is unchanged on such calls. -/
theorem C2_counterexample :
    (increment_issues initStore ["nonexistent-id"] none).2 = false ∧
    get_total_users (increment_issues initStore ["nonexistent-id"] none).1 =
      get_total_users initStore + 1 ∧
    get_total_users (increment_issues initStore ["nonexistent-id"] none).1 ≠
      get_total_users initStore := by
  decide

/-- C2 amended: a call in which no id resolves returns failure, but the
total-participants counter is incremented by exactly 1 on every call that
passes validation and the duplicate check, whether or not any id resolved
(never per issue). -/
theorem C2_amended_total_users (s : IssueDataStore) (ids : List String)
    (u : Option String) (hne : ids ≠ [])
    (hdup : ¬(uTruthy u = true ∧ uVal u ∈ s.user_sessions)) :
    ((∀ i ∈ ids, dictContains s.issues i = false) →
      (increment_issues s ids u).2 = false) ∧
    get_total_users (increment_issues s ids u).1 = get_total_users s + 1 := by
  constructor
  · intro hnone
    rw [increment_issues_spec s ids u hne hdup]
    have hfil : ids.filter (fun i => dictContains s.issues i) = [] := by
      rw [List.filter_eq_nil_iff]
      intro a ha
      rw [hnone a ha]
      simp
    rw [hfil]
    rfl
  · rw [increment_issues_spec s ids u hne hdup]
    rfl

/-- Witness for the amended C2 at the seeded store and an unresolvable id. -/
theorem C2_amended_witness :
    ((["nonexistent-id"] : List String) ≠ []) ∧
    ((∀ i ∈ (["nonexistent-id"] : List String), dictContains initStore.issues i = false) →
      (increment_issues initStore ["nonexistent-id"] none).2 = false) ∧
    get_total_users (increment_issues initStore ["nonexistent-id"] none).1 =
      get_total_users initStore + 1 := by
  refine ⟨by decide, ?_, ?_⟩
  · exact (C2_amended_total_users initStore ["nonexistent-id"] none (by decide) (by decide)).1
  · exact (C2_amended_total_users initStore ["nonexistent-id"] none (by decide) (by decide)).2

/-- C3: a call whose provided user id is already in the session set (on a
store whose session set never contains the empty string) is rejected whole:
the returned store is the input store — every count, the session set and the
total-participants counter unchanged — and the flag is `False`. -/
theorem C3_duplicate_rejected_no_mutation (s : IssueDataStore) (u : String)
    (ids : List String) (hwf : "" ∉ s.user_sessions) (hmem : u ∈ s.user_sessions) :
    increment_issues s ids (some u) = (s, false) := by
  have hu : u ≠ "" := fun h => hwf (h ▸ hmem)
  exact increment_issues_duplicate s ids u hu hmem

/-- Witness for C3 at a store that has already seen `user-1`. -/
theorem C3_witness :
    increment_issues { initStore with user_sessions := {"user-1"} } ["housing"]
        (some "user-1") =
      ({ initStore with user_sessions := {"user-1"} }, false) :=
  C3_duplicate_rejected_no_mutation { initStore with user_sessions := {"user-1"} }
    "user-1" ["housing"] (by decide) (by decide)

/-- C4: after any state, one reset restores the issue dict (hence every count)
to its seed value and empties the session set, so a user id that was rejected
as a duplicate before the reset succeeds on its next increment call (with at
least one resolvable id) after the reset. -/
theorem C4_reset_restores (s : IssueDataStore) (u : String) (ids : List String)
    (hwf : "" ∉ s.user_sessions) (hmem : u ∈ s.user_sessions)
    (hex : ∃ i ∈ ids, dictContains initStore.issues i = true) :
    (increment_issues s ids (some u)).2 = false ∧
    (reset_to_demo_data s).issues = initStore.issues ∧
    (reset_to_demo_data s).user_sessions = ∅ ∧
    (increment_issues (reset_to_demo_data s) ids (some u)).2 = true := by
  have hu : u ≠ "" := fun h => hwf (h ▸ hmem)
  have hreset := reset_eq_initStore s
  refine ⟨?_, by rw [hreset], by rw [hreset]; rfl, ?_⟩
  · rw [increment_issues_duplicate s ids u hu hmem]
  · rw [hreset]
    have hne : ids ≠ [] := by
      rcases hex with ⟨i, hi, -⟩
      intro h
      subst h
      simp at hi
    have hdup : ¬(uTruthy (some u) = true ∧ uVal (some u) ∈ initStore.user_sessions) := by
      rintro ⟨-, hm⟩
      have hempty : initStore.user_sessions = ∅ := rfl
      rw [hempty] at hm
      simp at hm
    rw [increment_issues_snd_iff initStore ids (some u) hne hdup]
    exact hex

/-- Witness for C4: `user-1` is rejected before the reset and succeeds after. -/
theorem C4_witness :
    (increment_issues { initStore with user_sessions := {"user-1"} } ["housing"]
        (some "user-1")).2 = false ∧
    (reset_to_demo_data { initStore with user_sessions := {"user-1"} }).issues =
      initStore.issues ∧
    (reset_to_demo_data { initStore with user_sessions := {"user-1"} }).user_sessions = ∅ ∧
    (increment_issues (reset_to_demo_data { initStore with user_sessions := {"user-1"} })
        ["housing"] (some "user-1")).2 = true :=
  C4_reset_restores { initStore with user_sessions := {"user-1"} } "user-1" ["housing"]
    (by decide) (by decide) (by decide)

/-- C5 counterexample: immediately after `reset_to_demo_data`,
`get_total_users` reads 1200 (the reload estimate `len(demo_issues) * 100`),
not zero as the claim states. -/
theorem C5_counterexample :
    get_total_users (reset_to_demo_data initStore) ≠ 0 ∧
    get_total_users (reset_to_demo_data initStore) = 1200 := by
  decide

/-- C5 amended: immediately after `reset_to_demo_data` returns, the
total-participants counter reads `len(demo_issues) * 100 = 1200` — the reset
zeroes it, but the demo reload immediately re-seeds it. -/
theorem C5_amended_reset_total_users (s : IssueDataStore) :
    get_total_users (reset_to_demo_data s) = 1200 := by
  rw [reset_eq_initStore]
  rfl

/-- C6: on the seeded store, for every issue id `I` (existing or not), the
offices returned for `[I]` are exactly the office records listing `I` in
their `related_issues`. -/
theorem C6_offices_roundtrip :
    ∀ (I : String) (o : Office),
      o ∈ get_offices_by_issues initStore [I] ↔
        o ∈ initStore.offices.map Prod.snd ∧ I ∈ o.related_issues := by
  intro I o
  exact mem_get_offices_by_issues_single initStore I o (by decide) (by decide) (by decide)

/-- C7: after construction (and after every reset, which rebuilds the same
store), the office-issue and measure-issue indices are symmetric. -/
theorem C7_relationship_symmetry :
    (∀ p ∈ initStore.offices, ∀ q ∈ initStore.issues,
        (q.1 ∈ p.2.related_issues ↔ p.1 ∈ q.2.related_offices)) ∧
    (∀ p ∈ initStore.ballot_measures, ∀ q ∈ initStore.issues,
        (q.1 ∈ p.2.related_issues ↔ p.1 ∈ q.2.related_measures)) ∧
    (∀ s : IssueDataStore, reset_to_demo_data s = initStore) :=
  ⟨by decide, by decide, reset_eq_initStore⟩

/-- Witness for C7 at the city-council office and the housing issue. -/
theorem C7_witness :
    ("housing" ∈ office_city_council.related_issues ↔
      "city-council" ∈ issue_housing.related_offices) ∧
    reset_to_demo_data initStore = initStore :=
  ⟨C7_relationship_symmetry.1 ("city-council", office_city_council) (by decide)
      ("housing", issue_housing) (by decide),
   C7_relationship_symmetry.2.2 initStore⟩

/-- C8: for every store with pairwise-distinct candidate ids and every list of
issue ids, the candidates returned are exactly those with a direct issue match
or an office-mediated issue match (union of the two signals), each appearing
exactly once. -/
theorem C8_candidates_union (s : IssueDataStore) (ids : List String)
    (hnodup : (s.candidates.map (fun p => p.2.id)).Nodup) :
    (∀ c : Candidate,
      c ∈ get_candidates_by_issues s ids ↔
        c ∈ s.candidates.map Prod.snd ∧
          ((∃ i ∈ ids, i ∈ c.related_issues) ∨
           (c.office_id ≠ "" ∧ ∃ o, dictLookup s.offices c.office_id = some o ∧
             ∃ i ∈ ids, i ∈ o.related_issues))) ∧
    ((get_candidates_by_issues s ids).map Candidate.id).Nodup :=
  ⟨fun c => mem_get_candidates_by_issues s ids c,
   get_candidates_by_issues_id_nodup s ids hnodup⟩

/-- Witness for C8: `candidate_2` has no direct `housing` match but is
returned for `["housing"]` through its office `city-council`. -/
theorem C8_witness :
    ((initStore.candidates.map (fun p => p.2.id)).Nodup) ∧
    candidate_2 ∈ get_candidates_by_issues initStore ["housing"] ∧
    ((get_candidates_by_issues initStore ["housing"]).map Candidate.id).Nodup := by
  have h := C8_candidates_union initStore ["housing"] (by decide)
  refine ⟨by decide, ?_, h.2⟩
  exact (h.1 candidate_2).mpr
    ⟨by decide, Or.inr ⟨by decide, office_city_council, by decide, by decide⟩⟩

/-- C9: when the candidates route receives both a non-empty office filter and
a non-empty issue filter, the result is exactly the candidates whose
`office_id` is among the parsed office ids, and the issue parameter has no
effect on the result. -/
theorem C9_office_filter_precedence (db : SupabaseDB) (issues_param offices_param : String)
    (hoff : offices_param ≠ "") (_hiss : issues_param ≠ "") :
    get_candidates_endpoint db issues_param offices_param =
      db.candidates.filter (fun c => c.office_id ∈ parseIds offices_param) ∧
    (∀ p : String, get_candidates_endpoint db issues_param offices_param =
      get_candidates_endpoint db p offices_param) := by
  refine ⟨endpoint_office_filter db issues_param offices_param hoff, ?_⟩
  intro p
  rw [endpoint_office_filter db issues_param offices_param hoff,
      endpoint_office_filter db p offices_param hoff]

/-- Witness for C9 on the seeded database, with both filters supplied. -/
theorem C9_witness :
    (get_candidates_endpoint demoDB "housing" "city-council" =
      demoDB.candidates.filter (fun c => c.office_id ∈ parseIds "city-council")) ∧
    get_candidates_endpoint demoDB "housing" "city-council" =
      get_candidates_endpoint demoDB "environment" "city-council" := by
  have h := C9_office_filter_precedence demoDB "housing" "city-council"
    (by decide) (by decide)
  exact ⟨h.1, h.2 "environment"⟩

/-- C10: a non-rejected call does not deduplicate its input: an existing issue
id occurring `k` times in `issue_ids` has its count increased by exactly `k`. -/
theorem C10_count_per_occurrence (s : IssueDataStore) (ids : List String)
    (u : Option String) (i : String) (iss : Issue)
    (hdup : ¬(uTruthy u = true ∧ uVal u ∈ s.user_sessions))
    (hiss : dictLookup s.issues i = some iss) :
    dictLookup (increment_issues s ids u).1.issues i =
      some { iss with count := iss.count + ids.count i } := by
  by_cases hne : ids = []
  · subst hne
    unfold increment_issues
    rw [if_pos rfl, hiss]
    rfl
  · rw [increment_issues_spec s ids u hne hdup]
    exact incrementLoop_fst_lookup ids s.issues i iss hiss

/-- Witness for C10: `housing` occurring twice is incremented twice
(1247 to 1249). -/
theorem C10_witness :
    (¬(uTruthy none = true ∧ uVal none ∈ initStore.user_sessions)) ∧
    dictLookup (increment_issues initStore ["housing", "housing"] none).1.issues
        "housing" =
      some { issue_housing with
             count := issue_housing.count + (["housing", "housing"] : List String).count "housing" } :=
  ⟨by decide,
   C10_count_per_occurrence initStore ["housing", "housing"] none "housing" issue_housing
     (by decide) (by decide)⟩

end Flint
